import Mathlib

/-!
Shallow embedding of the adaptive rate-limiting and threat-detection core of the
micrologin authentication service, together with proofs of the specification
claims about it.

Conventions of the embedding:
* timestamps are natural numbers counting milliseconds (JS `Date.now()`);
* the nondeterministic inputs of the JavaScript code (current time, random
  identifiers) are passed as explicit arguments;
* JavaScript `Set`/`Map` state is modelled as lists or as functions with
  pointwise update;
* console logging has no effect on the modelled state and is dropped, except
  that triggered security alerts are returned as an explicit list so that
  alerting behaviour can be stated.
-/

/-! ## Security audit journal (src/middleware/securityAudit.js, class SecurityAuditLogger) -/

/-- Values stored in the free-form `details` map of a security event. -/
inductive DVal where
  | s : String → DVal
  | n : Nat → DVal
  | b : Bool → DVal
deriving DecidableEq

/-- Reading `details.ip || 'unknown'` (and likewise `details.userAgent`):
a missing entry, a non-string entry or the falsy empty string all yield
`"unknown"`.  All call sites in the source store strings under these keys. -/
def detailsStr (d : List (String × DVal)) (key : String) : String :=
  match d.lookup key with
  | some (DVal.s v) => if v = "" then "unknown" else v
  | _ => "unknown"

/-- A recorded security event (the object built in `logSecurityEvent`).
`time` is the event timestamp in milliseconds; the source stores it as an ISO
string and re-parses it with `new Date(...).getTime()`, which is the identity
at millisecond precision. -/
structure SecurityEvent where
  time : Nat
  eventType : String
  details : List (String × DVal)
  severity : String
  ip : String
  userAgent : String
  id : String
deriving DecidableEq

/-- The incrementally updated counters (`this.stats`). -/
structure AuditStats where
  totalRequests : Nat
  blockedRequests : Nat
  failedLogins : Nat
  suspiciousActivities : Nat
deriving DecidableEq

/-- Mutable state of `SecurityAuditLogger`: the bounded event journal and the
counters.  `alertThresholds` is a constant of the class and is kept as the
separate definitions below. -/
structure AuditState where
  events : List SecurityEvent
  stats : AuditStats
deriving DecidableEq

/-- `this.alertThresholds.failedLogins`. -/
def alertThresholdFailedLogins : Nat := 5

/-- `this.alertThresholds.blockedIPs`. -/
def alertThresholdBlockedIPs : Nat := 3

/-- `this.alertThresholds.suspiciousActivity`. -/
def alertThresholdSuspicious : Nat := 10

/-- `getRecentEvents(timeWindow)`: the events with `now - eventTime < timeWindow`.
Natural subtraction truncates at zero exactly as the JS subtraction of a
not-later timestamp stays below the window. -/
def getRecentEvents (events : List SecurityEvent) (now timeWindow : Nat) :
    List SecurityEvent :=
  events.filter (fun e => now - e.time < timeWindow)

/-- `updateStats(type)`: `totalRequests` always increments, then one
type-specific counter. -/
def updateStats (s : AuditStats) (type : String) : AuditStats :=
  let s1 := { s with totalRequests := s.totalRequests + 1 }
  if type = "login_attempt" then
    { s1 with failedLogins := s1.failedLogins + 1 }
  else if type = "ip_blocked" ∨ type = "rate_limit_violation" ∨ type = "security_attack" then
    { s1 with blockedRequests := s1.blockedRequests + 1 }
  else if type = "suspicious_activity" then
    { s1 with suspiciousActivities := s1.suspiciousActivities + 1 }
  else s1

/-- `checkAlerts(type)`: after each insert, count the events of the same type in
the trailing 5-minute window and emit the matching alert names.  The source
fires `triggerAlert` (a log line); the returned list records which alerts
fired. -/
def checkAlerts (events : List SecurityEvent) (type : String) (now : Nat) :
    List String :=
  let recentEvents := getRecentEvents events now 300000
  let typeEvents := recentEvents.filter (fun e => e.eventType = type)
  (if type = "login_attempt" ∧ alertThresholdFailedLogins ≤ typeEvents.length then
      ["MULTIPLE_FAILED_LOGINS"] else [])
    ++ (if type = "ip_blocked" ∧ alertThresholdBlockedIPs ≤ typeEvents.length then
      ["MULTIPLE_IP_BLOCKS"] else [])
    ++ (if type = "suspicious_activity" ∧ alertThresholdSuspicious ≤ typeEvents.length then
      ["HIGH_SUSPICIOUS_ACTIVITY"] else [])

/-- The event object constructed at the top of `logSecurityEvent`.  `rnd` is
the random suffix drawn by `generateEventId`. -/
def mkSecurityEvent (type : String) (details : List (String × DVal))
    (severity : String) (now : Nat) (rnd : String) : SecurityEvent :=
  { time := now
    eventType := type
    details := details
    severity := severity
    ip := detailsStr details "ip"
    userAgent := detailsStr details "userAgent"
    id := "sec_" ++ toString now ++ "_" ++ rnd }

/-- `logSecurityEvent(type, details, severity)`: push the event, update the
counters, check the alert thresholds (on the journal *after* the push and
*before* the cap), then drop the oldest event if the journal exceeds 1000
entries (`this.events.shift()`).  Returns the new state and the alerts that
fired. -/
def logSecurityEvent (st : AuditState) (type : String)
    (details : List (String × DVal)) (severity : String) (now : Nat)
    (rnd : String) : AuditState × List String :=
  let event := mkSecurityEvent type details severity now rnd
  let pushed := st.events ++ [event]
  let stats1 := updateStats st.stats type
  let alerts := checkAlerts pushed type now
  let events2 := if 1000 < pushed.length then pushed.drop 1 else pushed
  ({ events := events2, stats := stats1 }, alerts)

/-- `logLoginAttempt(username, ip, userAgent, success)`: records a
`login_attempt` event with severity `info` on success and `warning` on
failure. -/
def logLoginAttempt (st : AuditState) (username ip userAgent : String)
    (success : Bool) (now : Nat) (rnd : String) : AuditState × List String :=
  logSecurityEvent st "login_attempt"
    [("username", DVal.s username), ("ip", DVal.s ip),
      ("userAgent", DVal.s userAgent), ("success", DVal.b success),
      ("timestamp", DVal.n now)]
    (if success then "info" else "warning") now rnd

/-- `calculateRiskLevel(recentEvents)`: weighted score of error and warning
events, mapped to the four tiers. -/
def calculateRiskLevel (recentEvents : List SecurityEvent) : String :=
  let errors := (recentEvents.filter (fun e => e.severity = "error")).length
  let warnings := (recentEvents.filter (fun e => e.severity = "warning")).length
  let score := errors * 3 + warnings * 1
  if 20 ≤ score then "HIGH"
  else if 10 ≤ score then "MEDIUM"
  else if 5 ≤ score then "LOW"
  else "MINIMAL"

/-- The object returned by `getSecurityStats()`. -/
structure SecurityStatsView where
  totalRequests : Nat
  blockedRequests : Nat
  failedLogins : Nat
  suspiciousActivities : Nat
  recentEvents : Nat
  activeThreats : Nat
  riskLevel : String
deriving DecidableEq

/-- `getSecurityStats()`: the counters plus derived figures over the trailing
5-minute window. -/
def getSecurityStats (st : AuditState) (now : Nat) : SecurityStatsView :=
  let recent := getRecentEvents st.events now 300000
  { totalRequests := st.stats.totalRequests
    blockedRequests := st.stats.blockedRequests
    failedLogins := st.stats.failedLogins
    suspiciousActivities := st.stats.suspiciousActivities
    recentEvents := recent.length
    activeThreats := (recent.filter (fun e => e.severity = "error")).length
    riskLevel := calculateRiskLevel recent }

/-- Spec-side weight of one event in the risk score: 3 for severity `error`,
1 for `warning`, 0 otherwise (written from the specification text, for the
refinement claim C6). -/
def eventRiskWeightSpec (e : SecurityEvent) : Nat :=
  if e.severity = "error" then 3 else if e.severity = "warning" then 1 else 0

/-- Spec-side risk score: sum of the weights over the trailing 5-minute
window (written from the specification text). -/
def riskScoreSpec (events : List SecurityEvent) (now : Nat) : Nat :=
  ((events.filter (fun e => now - e.time < 300000)).map eventRiskWeightSpec).sum

/-- Spec-side tier map, with the two-sided bounds exactly as the claim states
them: `score≥20→HIGH`, `10≤score<20→MEDIUM`, `5≤score<10→LOW`, else
`MINIMAL`. -/
def riskLevelSpec (events : List SecurityEvent) (now : Nat) : String :=
  let score := riskScoreSpec events now
  if 20 ≤ score then "HIGH"
  else if 10 ≤ score ∧ score < 20 then "MEDIUM"
  else if 5 ≤ score ∧ score < 10 then "LOW"
  else "MINIMAL"

/-- The inputs of one `logLoginAttempt` call (the random event-id suffix
included). -/
structure LoginAttemptIn where
  username : String
  ip : String
  userAgent : String
  success : Bool
  time : Nat
  rnd : String

/-- The event that `logLoginAttempt` records for the given inputs. -/
def loginEvt (x : LoginAttemptIn) : SecurityEvent :=
  mkSecurityEvent "login_attempt"
    [("username", DVal.s x.username), ("ip", DVal.s x.ip),
      ("userAgent", DVal.s x.userAgent), ("success", DVal.b x.success),
      ("timestamp", DVal.n x.time)]
    (if x.success then "info" else "warning") x.time x.rnd

/-- Run a sequence of `logLoginAttempt` calls, collecting the alert list each
call fires. -/
def runLoginAttempts (st : AuditState) :
    List LoginAttemptIn → AuditState × List (List String)
  | [] => (st, [])
  | x :: xs =>
    let r := logLoginAttempt st x.username x.ip x.userAgent x.success x.time x.rnd
    let rest := runLoginAttempts r.1 xs
    (rest.1, r.2 :: rest.2)

/-- Number of `login_attempt` events in the trailing 5-minute window: the
quantity `checkAlerts` compares against the threshold. -/
def countRecentLoginAttempts (events : List SecurityEvent) (now : Nat) : Nat :=
  ((getRecentEvents events now 300000).filter
    (fun e => e.eventType = "login_attempt")).length

/-! ## Advanced rate limiter (src/middleware/advancetRateLimit.js, class AdvancedRateLimiter)

The token-bucket semantics of the external `rate-limiter-flexible` dependency
is not repository code; it is modelled from the spec (§3 QuotaBucket, §4.1
QuotaLimiter).  `checkLimits` itself is translated from the source. -/

/-- A per-scope configuration triple; `duration` and `blockDuration` are in
seconds as in the source configuration. -/
structure ScopeConfig where
  points : Nat
  duration : Nat
  blockDuration : Nat
deriving DecidableEq

/-- Modelled from the spec: the bucket state of one key in one scope of the
external `rate-limiter-flexible` store — points remaining, window start and a
nullable block-until timestamp (both in milliseconds). -/
structure Bucket where
  pointsRemaining : Nat
  windowStart : Nat
  blockUntil : Option Nat
deriving DecidableEq

/-- Result of one consumption against one bucket. -/
inductive ConsumeResult where
  | allowed (remaining : Nat)
  | rejected (msBeforeNext : Nat) (remaining : Nat)
deriving DecidableEq

/-- Modelled from the spec: consume one point from a non-blocked bucket whose
window is current; an exhausted bucket enters the blocked state for
`blockDuration` and rejects. -/
def consumeActive (cfg : ScopeConfig) (b : Bucket) (now : Nat) :
    ConsumeResult × Bucket :=
  if b.pointsRemaining = 0 then
    (ConsumeResult.rejected (cfg.blockDuration * 1000) 0,
      { b with blockUntil := some (now + cfg.blockDuration * 1000) })
  else
    (ConsumeResult.allowed (b.pointsRemaining - 1),
      { b with pointsRemaining := b.pointsRemaining - 1 })

/-- Modelled from the spec: `consume(key)` of the external library.  A missing
bucket is created full and lazily; an elapsed block or an elapsed window resets
the bucket to a fresh full window before decrementing; a still-standing block
rejects with the remaining block time. -/
def consume (cfg : ScopeConfig) (b? : Option Bucket) (now : Nat) :
    ConsumeResult × Bucket :=
  let fresh : Bucket :=
    { pointsRemaining := cfg.points, windowStart := now, blockUntil := none }
  match b? with
  | none => consumeActive cfg fresh now
  | some b =>
    match b.blockUntil with
    | some t =>
      if now < t then (ConsumeResult.rejected (t - now) b.pointsRemaining, b)
      else consumeActive cfg fresh now
    | none =>
      if b.windowStart + cfg.duration * 1000 ≤ now then consumeActive cfg fresh now
      else consumeActive cfg b now

/-- The limiter configuration (`validateRateLimitConfig().config`). -/
structure LimiterConfig where
  ip : ScopeConfig
  user : ScopeConfig
  login : ScopeConfig
  environment : String
  exemptPaths : List String
deriving DecidableEq

/-- Mutable state of `AdvancedRateLimiter`: the `initialized` flag, the active
configuration, and one bucket table per scope. -/
structure LimiterState where
  initialized : Bool
  config : LimiterConfig
  ipBuckets : String → Option Bucket
  userBuckets : String → Option Bucket
  loginBuckets : String → Option Bucket

/-- The request fields `checkLimits` reads. -/
structure RLRequest where
  ip : Option String
  userId : Option String
  path : String
deriving DecidableEq

/-- `req.ip || 'unknown'` (a missing or falsy-empty address reads as
`unknown`). -/
def requestIp (req : RLRequest) : String :=
  match req.ip with
  | some s => if s = "" then "unknown" else s
  | none => "unknown"

/-- `req.path.includes('/login')`. -/
def pathIncludesLogin (path : String) : Bool :=
  decide ("/login".toList <:+: path.toList)

/-- `this.config.exemptPaths.some(path => req.path === path || req.path.startsWith(path))`;
`startsWith` is string-prefix, expressed structurally on the character
lists. -/
def isExemptPath (exempt : List String) (path : String) : Bool :=
  exempt.any (fun p => decide (path = p) || p.toList.isPrefixOf path.toList)

/-- Outcome of `checkLimits`: either `next()` is called (and no rate-limit
headers are set), or a 429 response carrying the Retry-After seconds, the
X-RateLimit-Limit value and the X-RateLimit-Remaining value. -/
inductive CheckOutcome where
  | proceed
  | tooMany (retryAfterSecs : Nat) (limit : Nat) (remaining : Nat)
deriving DecidableEq

/-- The 429 branch of `checkLimits`:
`secondsToWait = Math.round(msBeforeNext / 1000) || 1` with
`msBeforeNext || 1000`; the limit header is the rejecting scope's
`totalPoints`, the remaining header is `remainingPoints || 0`. -/
def mkTooMany (cfg : ScopeConfig) (ms rem : Nat) : CheckOutcome :=
  let ms1 := if ms = 0 then 1000 else ms
  let secs := (ms1 + 500) / 1000
  CheckOutcome.tooMany (if secs = 0 then 1 else secs) cfg.points rem

/-- Update one scope's bucket table at one key. -/
def setBucket (f : String → Option Bucket) (k : String) (b : Bucket) :
    String → Option Bucket :=
  fun x => if x = k then some b else f x

/-- The login-scope step of `checkLimits`: runs only when the path contains
`/login`, consuming key `ip + "_login"`. -/
def loginStep (st : LimiterState) (req : RLRequest) (now : Nat) :
    CheckOutcome × LimiterState :=
  if pathIncludesLogin req.path then
    let key := requestIp req ++ "_login"
    match consume st.config.login (st.loginBuckets key) now with
    | (ConsumeResult.rejected ms rem, b) =>
      (mkTooMany st.config.login ms rem,
        { st with loginBuckets := setBucket st.loginBuckets key b })
    | (ConsumeResult.allowed _, b) =>
      (CheckOutcome.proceed,
        { st with loginBuckets := setBucket st.loginBuckets key b })
  else (CheckOutcome.proceed, st)

/-- The user-scope step of `checkLimits`: runs only when `req.user?.id` is
present, then falls through to the login step. -/
def userStep (st : LimiterState) (req : RLRequest) (now : Nat) :
    CheckOutcome × LimiterState :=
  match req.userId with
  | none => loginStep st req now
  | some uid =>
    match consume st.config.user (st.userBuckets uid) now with
    | (ConsumeResult.rejected ms rem, b) =>
      (mkTooMany st.config.user ms rem,
        { st with userBuckets := setBucket st.userBuckets uid b })
    | (ConsumeResult.allowed _, b) =>
      loginStep { st with userBuckets := setBucket st.userBuckets uid b } req now

/-- `checkLimits(req, res, next)`: allow everything when not initialized, skip
exempt paths, then consume IP scope, then USER scope if authenticated, then
LOGIN scope if the path contains `/login`.  The first rejection answers 429
(the `await ...consume` throws out of the `try` block), so later scopes are
not consumed. -/
def checkLimits (st : LimiterState) (req : RLRequest) (now : Nat) :
    CheckOutcome × LimiterState :=
  if st.initialized = false then (CheckOutcome.proceed, st)
  else if isExemptPath st.config.exemptPaths req.path then (CheckOutcome.proceed, st)
  else
    let ip := requestIp req
    match consume st.config.ip (st.ipBuckets ip) now with
    | (ConsumeResult.rejected ms rem, b) =>
      (mkTooMany st.config.ip ms rem,
        { st with ipBuckets := setBucket st.ipBuckets ip b })
    | (ConsumeResult.allowed _, b) =>
      userStep { st with ipBuckets := setBucket st.ipBuckets ip b } req now

/-- A concrete active configuration (the production defaults of
`rateLimitConfig`). -/
def rlConfigEx : LimiterConfig :=
  { ip := ⟨100, 60, 300⟩
    user := ⟨200, 60, 600⟩
    login := ⟨5, 900, 1800⟩
    environment := "production"
    exemptPaths := ["/health", "/metrics", "/api-docs", "/favicon.ico"] }

/-- A concrete initialized limiter state with empty bucket tables. -/
def rlStateEx : LimiterState :=
  { initialized := true
    config := rlConfigEx
    ipBuckets := fun _ => none
    userBuckets := fun _ => none
    loginBuckets := fun _ => none }

/-- A concrete unauthenticated request whose path contains `/login` but is not
the login endpoint `/login`. -/
def rlReqEx : RLRequest :=
  { ip := some "9.9.9.9", userId := none, path := "/loginator" }

/-! ## JWT manager (src/utils/jwtManager.js, class JWTManager)

Tokens are modelled structurally: an HS256 signature is idealised as the
secret that produced it, so `jwt.verify(token, key)` succeeds exactly when the
token was signed with `key` and is unexpired.  `jwt.decode` reads the header
and the payload without touching the signature, as in the source. -/

/-- A JSON claim value; strings and integer timestamps cover the payloads the
manager builds. -/
inductive JVal where
  | s : String → JVal
  | n : Int → JVal
deriving DecidableEq

/-- A token payload: a finite map from claim names to values. -/
abbrev Payload := String → Option JVal

/-- A decoded JWT: the header's key id, the payload, and the idealised
signature (the secret that signed it). -/
structure Token where
  headerKid : String
  payload : Payload
  sigKey : String

/-- Mutable state of `JWTManager`: the revocation blacklist (a `Set`), the
current key id and the key table (a `Map`, which also holds the `backup`
slot). -/
structure JWTState where
  blacklistedTokens : List String
  currentKeyId : String
  keys : String → Option String

/-- `jwt.sign(payload, secret, { header: { kid } })` in the idealised model. -/
def jwtSign (payload : Payload) (secret : String) (kid : String) : Token :=
  { headerKid := kid, payload := payload, sigKey := secret }

/-- `jwt.verify(token, key)`: the signature check, then the `exp` claim
against the clock (`exp ≤ now` is expired).  The source passes no
issuer/audience options, so none are checked. -/
def jwtVerify (tok : Token) (secret : String) (now : Int) :
    Except String Payload :=
  if tok.sigKey = secret then
    match tok.payload "exp" with
    | some (JVal.n e) =>
      if e ≤ now then Except.error "jwt expired" else Except.ok tok.payload
    | _ => Except.ok tok.payload
  else Except.error "invalid signature"

/-- The registered claims that `signToken` writes over the spread caller
payload. -/
def reservedClaims : List String := ["iat", "exp", "jti", "kid", "iss", "aud"]

/-- The token payload built by `signToken`: the caller's claims spread first,
then `iat`, `exp` (now + 6h), `jti`, `kid`, `iss`, `aud` written on top. -/
def signedPayload (payload : Payload) (now : Int) (jti kid : String) : Payload :=
  fun k =>
    if k = "iat" then some (JVal.n now)
    else if k = "exp" then some (JVal.n (now + 6 * 60 * 60))
    else if k = "jti" then some (JVal.s jti)
    else if k = "kid" then some (JVal.s kid)
    else if k = "iss" then some (JVal.s "auth-service")
    else if k = "aud" then some (JVal.s "api-gateway")
    else payload k

/-- `signToken(payload)`: build the payload with the registered claims, then
sign with the current key.  The `jti` drawn by `crypto.randomUUID()` and the
clock (seconds) are explicit inputs.  `none` models the `jwt.sign` throw when
the current key is missing from the table (or falsy-empty). -/
def signToken (st : JWTState) (payload : Payload) (now : Int)
    (freshJti : String) : Option Token :=
  match st.keys st.currentKeyId with
  | some secret =>
    if secret = "" then none
    else some (jwtSign (signedPayload payload now freshJti st.currentKeyId)
      secret st.currentKeyId)
  | none => none

/-- `this.keys.get(keyId) || this.keys.get('backup')` with JS falsiness: an
absent or empty-string secret falls through to the backup slot. -/
def jsOrKey (a b : Option String) : Option String :=
  match a with
  | some s => if s = "" then b else some s
  | none => b

/-- The key lookup of `verifyToken`, including the `if (!key)` guard: a
missing or empty final result is a key-not-found failure. -/
def lookupVerifyKey (st : JWTState) (kid : String) : Option String :=
  match jsOrKey (st.keys kid) (st.keys "backup") with
  | some s => if s = "" then none else some s
  | none => none

/-- `verifyToken(token)`: decode without validating, reject a blacklisted
`jti`, find the key by header kid with backup fallback, then `jwt.verify`.
Every failure surfaces as `Token inválido: <reason>` through the catch
block. -/
def verifyToken (st : JWTState) (tok : Token) (now : Int) :
    Except String Payload :=
  let revoked :=
    match tok.payload "jti" with
    | some (JVal.s j) => decide (j ∈ st.blacklistedTokens)
    | _ => false
  if revoked then Except.error "Token inválido: Token revogado"
  else
    match lookupVerifyKey st tok.headerKid with
    | none => Except.error "Token inválido: Chave não encontrada"
    | some key =>
      match jwtVerify tok key now with
      | Except.ok p => Except.ok p
      | Except.error e => Except.error ("Token inválido: " ++ e)

/-- `revokeToken(jti)`: insert the id into the blacklist set. -/
def revokeToken (st : JWTState) (jti : String) : JWTState :=
  { st with blacklistedTokens :=
      if jti ∈ st.blacklistedTokens then st.blacklistedTokens
      else jti :: st.blacklistedTokens }

/-- `rotateKeys()`: move the current key into the backup slot, then install
`JWT_SECRET` under a freshly generated key id, which becomes current. -/
def rotateKeys (st : JWTState) (newKeyId envSecret : String) : JWTState :=
  { st with
      currentKeyId := newKeyId
      keys := fun k =>
        if k = newKeyId then some envSecret
        else if k = "backup" then st.keys st.currentKeyId
        else st.keys k }

/-- A concrete key-manager state: current key `key1` with secret `secret`, a
distinct backup secret, empty blacklist. -/
def jwtStateEx : JWTState :=
  { blacklistedTokens := []
    currentKeyId := "key1"
    keys := fun k =>
      if k = "key1" then some "secret"
      else if k = "backup" then some "secret2"
      else none }

/-- A concrete token carrying `jti = "j1"`, unexpired at time 0, signed with
the known key `secret`. -/
def jwtTokenEx : Token :=
  { headerKid := "key1"
    payload := fun k =>
      if k = "jti" then some (JVal.s "j1")
      else if k = "exp" then some (JVal.n 100)
      else none
    sigKey := "secret" }

/-- A concrete caller payload that uses the registered claim name `iss`. -/
def jwtPayloadC4Ex : Payload :=
  fun k => if k = "iss" then some (JVal.s "other") else none

/-- A concrete caller payload that avoids the registered claim names. -/
def jwtPayloadC4Wit : Payload :=
  fun k => if k = "sub" then some (JVal.s "alice") else none

/-! ## Security monitor (src/middleware/securityMonitoring.js, class SecurityMonitor) -/

/-- JS regex `\s` whitespace, restricted to the ASCII range (the Unicode
space class is irrelevant to the claims). -/
def isJsSpace (c : Char) : Bool :=
  c = ' ' || c = '\t' || c = '\n' || c = '\r' || c = '\x0b' || c = '\x0c'

/-- Does some suffix of the character list satisfy the position matcher `p`?
The unanchored regexes below try every start position this way. -/
def anySuffix (p : List Char → Bool) : List Char → Bool
  | [] => p []
  | c :: t => p (c :: t) || anySuffix p t

/-- The SQL keywords of source pattern 4. -/
def sqlKeywords : List (List Char) :=
  ["union", "select", "insert", "update", "delete", "drop", "create",
    "alter"].map String.toList

/-- The mutating SQL keywords of source pattern 5. -/
def sqlMutKeywords : List (List Char) :=
  ["drop", "delete", "update", "insert"].map String.toList

/-- Position matcher for pattern 4: a SQL keyword followed by a whitespace
character. -/
def kwThenSpaceAt (s : List Char) : Bool :=
  sqlKeywords.any (fun kw =>
    kw.isPrefixOf s &&
      (match s.drop kw.length with
        | c :: _ => isJsSpace c
        | [] => false))

/-- Skip the `(\s)*` part of pattern 5 (the keywords start with non-space
letters, so greedy skipping is equivalent to the regex). -/
def skipJsSpaces : List Char → List Char
  | [] => []
  | c :: t => if isJsSpace c then skipJsSpaces t else c :: t

/-- Position matcher for pattern 5: `;` or `%3b`, optional whitespace, then a
mutating SQL keyword. -/
def semiThenKwAt (s : List Char) : Bool :=
  match s with
  | ';' :: rest => sqlMutKeywords.any (fun kw => kw.isPrefixOf (skipJsSpaces rest))
  | '%' :: '3' :: 'b' :: rest =>
    sqlMutKeywords.any (fun kw => kw.isPrefixOf (skipJsSpaces rest))
  | _ => false

/-- Containment of a fixed lower-case pattern in an already lower-cased
subject. -/
def containsCI (s : List Char) (pat : String) : Bool :=
  decide (pat.toList <:+: s)

/-- `/(<|%3C)script(>|%3E)/i` on a lower-cased subject: the four alternative
spellings. -/
def pat0 (s : List Char) : Bool :=
  containsCI s "<script>" || containsCI s "<script%3e" ||
    containsCI s "%3cscript>" || containsCI s "%3cscript%3e"

/-- `/(<|%3C)iframe(>|%3E)/i`. -/
def pat1 (s : List Char) : Bool :=
  containsCI s "<iframe>" || containsCI s "<iframe%3e" ||
    containsCI s "%3ciframe>" || containsCI s "%3ciframe%3e"

/-- `/javascript:/i`. -/
def pat2 (s : List Char) : Bool := containsCI s "javascript:"

/-- `/vbscript:/i`. -/
def pat3 (s : List Char) : Bool := containsCI s "vbscript:"

/-- `/(union|select|insert|update|delete|drop|create|alter)\s/i`. -/
def pat4 (s : List Char) : Bool := anySuffix kwThenSpaceAt s

/-- `/(;|%3B)(\s)*(drop|delete|update|insert)/i`. -/
def pat5 (s : List Char) : Bool := anySuffix semiThenKwAt s

/-- `this.suspiciousPatterns`, in source order, as predicates on the
lower-cased request data. -/
def suspiciousPatterns : List (List Char → Bool) :=
  [pat0, pat1, pat2, pat3, pat4, pat5]

/-- One character of `JSON.stringify` string escaping. -/
def jsonEscapeChar (c : Char) : List Char :=
  if c = '"' then ['\\', '"']
  else if c = '\\' then ['\\', '\\']
  else if c = '\n' then ['\\', 'n']
  else if c = '\r' then ['\\', 'r']
  else if c = '\t' then ['\\', 't']
  else if c = '\x08' then ['\\', 'b']
  else if c = '\x0c' then ['\\', 'f']
  else if c.toNat < 32 then
    ['\\', 'u', '0', '0', Nat.digitChar (c.toNat / 16), Nat.digitChar (c.toNat % 16)]
  else [c]

/-- `JSON.stringify` of a string body: quote, escape, quote. -/
def jsonStringifyString (s : String) : List Char :=
  '"' :: (s.toList.flatMap jsonEscapeChar ++ ['"'])

/-- The request fields `detectThreats` reads; `body` is the request body as
the string that `JSON.stringify` serialises. -/
structure MonRequest where
  ip : String
  userAgent : String
  path : String
  url : String
  body : String

/-- Mutable state of `SecurityMonitor`: the blocked-IP set, the pending
unblock timers created by `setTimeout` in `blockSuspiciousIP` (fire time in
milliseconds, IP), and the per-client sliding activity windows. -/
structure MonitorState where
  blockedIPs : String → Bool
  blockTimers : List (Nat × String)
  anomalies : String → List (Nat × String)

/-- `blockSuspiciousIP(ip)`: insert into the set and schedule the removal of
this IP one hour later (the `setTimeout` callback is recorded as a timer; the
audit-journal log calls are not part of this state). -/
def blockSuspiciousIP (st : MonitorState) (ip : String) (now : Nat) :
    MonitorState :=
  { st with
      blockedIPs := fun x => if x = ip then true else st.blockedIPs x
      blockTimers := st.blockTimers ++ [(now + 3600000, ip)] }

/-- Advance the clock to `t`: every scheduled `setTimeout` callback whose fire
time has been reached has run, deleting its IP from the set and leaving the
timer list. -/
def runDueTimers (st : MonitorState) (t : Nat) : MonitorState :=
  { st with
      blockedIPs := fun x =>
        st.blockedIPs x &&
          ! st.blockTimers.any (fun p => decide (p.1 ≤ t) && decide (p.2 = x))
      blockTimers := st.blockTimers.filter (fun p => ! decide (p.1 ≤ t)) }

/-- `req.path.includes('../') || req.path.includes('..\\')`. -/
def pathHasTraversal (path : String) : Bool :=
  decide ("../".toList <:+: path.toList) ||
    decide ("..\\".toList <:+: path.toList)

/-- `detectAnomalies(clientId, req)`: push the timestamp, trim the window to
the last 60 seconds, flag floods (more than 50 recent requests) and path
traversal; each flag blocks the IP. -/
def detectAnomalies (st : MonitorState) (req : MonRequest) (now : Nat) :
    MonitorState :=
  let clientId := req.ip ++ req.userAgent
  let requests := st.anomalies clientId ++ [(now, req.path)]
  let recent := requests.filter (fun r => now - r.1 < 60000)
  let st1 := { st with
    anomalies := fun x => if x = clientId then recent else st.anomalies x }
  let st2 := if 50 < recent.length then blockSuspiciousIP st1 req.ip now else st1
  if pathHasTraversal req.path then blockSuspiciousIP st2 req.ip now else st2

/-- Outcome of `detectThreats`: `next()` or an HTTP rejection with its status
code and message. -/
inductive MonOutcome where
  | next
  | reject (status : Nat) (message : String)
deriving DecidableEq

/-- The scanned subject:
`JSON.stringify(req.body) + req.url + req.get('User-Agent')`. -/
def requestData (req : MonRequest) : List Char :=
  jsonStringifyString req.body ++ req.url.toList ++ req.userAgent.toList

/-- `detectThreats(req, res, next)`: the blocked-IP gate answers 403 first;
otherwise the pattern scan runs over the request data (lower-cased, for the
`/i` flags), anomalies are tracked, and any pattern match answers 403
fail-closed after blocking the IP. -/
def detectThreats (st : MonitorState) (req : MonRequest) (now : Nat) :
    MonOutcome × MonitorState :=
  if st.blockedIPs req.ip then
    (MonOutcome.reject 403 "IP temporarily blocked due to suspicious activity", st)
  else
    let lower := (requestData req).map Char.toLower
    let threats := suspiciousPatterns.filter (fun p => p lower)
    let st1 := detectAnomalies st req now
    if 0 < threats.length then
      (MonOutcome.reject 403 "Suspicious activity detected",
        blockSuspiciousIP st1 req.ip now)
    else (MonOutcome.next, st1)

/-- A concrete monitor state with nothing blocked and no history. -/
def monStateEx : MonitorState :=
  { blockedIPs := fun _ => false, blockTimers := [], anomalies := fun _ => [] }

/-- A concrete request whose body contains the XSS probe. -/
def monReqEx : MonRequest :=
  { ip := "9.9.9.9"
    userAgent := "curl"
    path := "/login"
    url := "/login"
    body := "<script>alert(1)</script>" }

/-! ## Theorems about the audit journal -/

/-- Claim C2: after each insertion the journal holds at most 1000 events, and
inserting into a journal that already holds 1000 drops exactly the oldest
event: the new journal is the old one without its head, with the new event
appended (FIFO). -/
theorem auditJournal_capped (st : AuditState) (type : String)
    (details : List (String × DVal)) (severity : String) (now : Nat)
    (rnd : String) (hlen : st.events.length ≤ 1000) :
    (logSecurityEvent st type details severity now rnd).1.events.length ≤ 1000 ∧
      (st.events.length = 1000 →
        (logSecurityEvent st type details severity now rnd).1.events =
          st.events.drop 1 ++ [mkSecurityEvent type details severity now rnd]) := by
  constructor
  · simp only [logSecurityEvent]
    split
    · simp only [List.length_drop, List.length_append, List.length_singleton]
      omega
    · rename_i h
      simp only [List.length_append, List.length_singleton] at h ⊢
      omega
  · intro h1000
    simp only [logSecurityEvent]
    rw [if_pos, List.drop_append_of_le_length]
    · omega
    · simp only [List.length_append, List.length_singleton]
      omega

/-- Witness for C2 at a concrete journal state. -/
theorem auditJournal_capped_witness :
    ((⟨[], ⟨0, 0, 0, 0⟩⟩ : AuditState).events.length ≤ 1000) ∧
      ((logSecurityEvent ⟨[], ⟨0, 0, 0, 0⟩⟩ "login_attempt" [] "info" 0 "r").1.events.length ≤ 1000 ∧
        ((⟨[], ⟨0, 0, 0, 0⟩⟩ : AuditState).events.length = 1000 →
          (logSecurityEvent ⟨[], ⟨0, 0, 0, 0⟩⟩ "login_attempt" [] "info" 0 "r").1.events =
            (⟨[], ⟨0, 0, 0, 0⟩⟩ : AuditState).events.drop 1 ++
              [mkSecurityEvent "login_attempt" [] "info" 0 "r"])) :=
  ⟨by decide, auditJournal_capped ⟨[], ⟨0, 0, 0, 0⟩⟩ "login_attempt" [] "info" 0 "r" (by decide)⟩

/-- Sum of spec weights equals three times the error count plus the warning
count. -/
theorem riskWeight_sum (l : List SecurityEvent) :
    (l.map eventRiskWeightSpec).sum =
      (l.filter (fun e => e.severity = "error")).length * 3 +
        (l.filter (fun e => e.severity = "warning")).length := by
  induction l with
  | nil => simp
  | cons e t ih =>
    by_cases he : e.severity = "error"
    · have hw : ¬ e.severity = "warning" := by rw [he]; decide
      simp [eventRiskWeightSpec, he, hw, ih]
      omega
    · by_cases hw : e.severity = "warning"
      · simp [eventRiskWeightSpec, he, hw, ih]
        omega
      · simp [eventRiskWeightSpec, he, hw, ih]

/-- The one-sided tier conditions of the source agree with the two-sided tier
conditions of the specification. -/
theorem riskTier_eq (s : Nat) :
    (if 20 ≤ s then "HIGH" else if 10 ≤ s then "MEDIUM"
      else if 5 ≤ s then "LOW" else "MINIMAL") =
    (if 20 ≤ s then "HIGH" else if 10 ≤ s ∧ s < 20 then "MEDIUM"
      else if 5 ≤ s ∧ s < 10 then "LOW" else "MINIMAL") := by
  split_ifs <;> first | rfl | omega

/-- Claim C6: the `riskLevel` reported by `getSecurityStats` equals the
spec-side computation: the weighted score `3×errors + 1×warnings` over the
trailing 5-minute window, mapped to the tiers HIGH (≥20), MEDIUM (10–19),
LOW (5–9), MINIMAL (<5). -/
theorem riskLevel_matches_spec (st : AuditState) (now : Nat) :
    (getSecurityStats st now).riskLevel = riskLevelSpec st.events now := by
  have h := riskWeight_sum (getRecentEvents st.events now 300000)
  simp only [getSecurityStats, riskLevelSpec, riskScoreSpec, calculateRiskLevel,
    getRecentEvents] at h ⊢
  simp only [h, Nat.mul_one]
  exact riskTier_eq _

/-- Claim C8: recording a `login_attempt` event increments the `failedLogins`
counter by one regardless of the `success` flag, and the alerts produced by a
successful attempt are identical to those produced by a failed one in the same
situation (successful attempts count toward the 5-event threshold). -/
theorem loginAttempt_counts_regardless_of_success (st : AuditState)
    (username ip userAgent : String) (success : Bool) (now : Nat)
    (rnd : String) :
    ((logLoginAttempt st username ip userAgent success now rnd).1.stats.failedLogins
        = st.stats.failedLogins + 1) ∧
      ((logLoginAttempt st username ip userAgent true now rnd).2
        = (logLoginAttempt st username ip userAgent false now rnd).2) := by
  constructor
  · simp [logLoginAttempt, logSecurityEvent, updateStats]
  · simp only [logLoginAttempt, logSecurityEvent, checkAlerts, getRecentEvents,
      mkSecurityEvent, List.filter_append, List.length_append]
    simp

/-- `checkAlerts` on a `login_attempt` insertion fires exactly the
multiple-failed-logins alert, and exactly when the 5-minute window holds at
least 5 login-attempt events. -/
theorem checkAlerts_login_eq (events : List SecurityEvent) (now : Nat) :
    checkAlerts events "login_attempt" now =
      if 5 ≤ countRecentLoginAttempts events now then ["MULTIPLE_FAILED_LOGINS"]
      else [] := by
  have h2 : ("login_attempt" = "ip_blocked") = False := by simp
  have h3 : ("login_attempt" = "suspicious_activity") = False := by simp
  simp [checkAlerts, countRecentLoginAttempts, alertThresholdFailedLogins, h2, h3]

/-- The recent-login-attempt count is additive over journal concatenation. -/
theorem countRecentLoginAttempts_append (A B : List SecurityEvent) (now : Nat) :
    countRecentLoginAttempts (A ++ B) now =
      countRecentLoginAttempts A now + countRecentLoginAttempts B now := by
  simp [countRecentLoginAttempts, getRecentEvents]

/-- A journal whose login-attempt events all left the 5-minute window
contributes nothing to the count. -/
theorem countRecentLoginAttempts_old_nil (A : List SecurityEvent) (now : Nat)
    (h : ∀ e ∈ A, e.eventType = "login_attempt" → e.time + 300000 ≤ now) :
    countRecentLoginAttempts A now = 0 := by
  simp only [countRecentLoginAttempts, getRecentEvents, List.filter_filter,
    List.length_eq_zero, List.filter_eq_nil_iff]
  intro e he
  simp only [Bool.and_eq_true, decide_eq_true_eq, not_and]
  intro ht
  have := h e he ht
  omega

/-- `logSecurityEvent` sends a journal of the shape `A ++ ours` to a journal
`A2 ++ (ours ++ [event])` where `A2` keeps only elements of `A` (the cap can
drop the head), and its alerts are those of `checkAlerts` on the pre-cap
journal. -/
theorem logSecurityEvent_decomp (st : AuditState) (A ours : List SecurityEvent)
    (h : st.events = A ++ ours) (hlen : ours.length < 1000) (type : String)
    (details : List (String × DVal)) (sev : String) (t : Nat) (rnd : String) :
    ∃ A2, (∀ y ∈ A2, y ∈ A) ∧
      (logSecurityEvent st type details sev t rnd).1.events
        = A2 ++ (ours ++ [mkSecurityEvent type details sev t rnd]) ∧
      (logSecurityEvent st type details sev t rnd).2
        = checkAlerts ((A ++ ours) ++ [mkSecurityEvent type details sev t rnd])
            type t := by
  by_cases hc : 1000 < (st.events ++ [mkSecurityEvent type details sev t rnd]).length
  · refine ⟨A.drop 1, fun y hy => List.mem_of_mem_drop hy, ?_, ?_⟩
    · simp only [logSecurityEvent]
      rw [if_pos hc, h]
      have hA : 1 ≤ A.length := by
        rw [h] at hc
        simp only [List.length_append, List.length_singleton] at hc
        omega
      rw [List.append_assoc, List.drop_append_of_le_length hA]
    · simp only [logSecurityEvent, h]
  · refine ⟨A, fun y hy => hy, ?_, ?_⟩
    · simp only [logSecurityEvent]
      rw [if_neg hc, h, List.append_assoc]
    · simp only [logSecurityEvent, h]

/-- Specialisation of the decomposition to `logLoginAttempt`, with the alert
output in counted form. -/
theorem logLoginAttempt_decomp (st : AuditState) (A ours : List SecurityEvent)
    (x : LoginAttemptIn) (h : st.events = A ++ ours) (hlen : ours.length < 1000) :
    ∃ A2, (∀ y ∈ A2, y ∈ A) ∧
      (logLoginAttempt st x.username x.ip x.userAgent x.success x.time x.rnd).1.events
        = A2 ++ (ours ++ [loginEvt x]) ∧
      (logLoginAttempt st x.username x.ip x.userAgent x.success x.time x.rnd).2
        = (if 5 ≤ countRecentLoginAttempts ((A ++ ours) ++ [loginEvt x]) x.time
            then ["MULTIPLE_FAILED_LOGINS"] else []) := by
  obtain ⟨A2, hmem, hev, hal⟩ := logSecurityEvent_decomp st A ours h hlen
    "login_attempt"
    [("username", DVal.s x.username), ("ip", DVal.s x.ip),
      ("userAgent", DVal.s x.userAgent), ("success", DVal.b x.success),
      ("timestamp", DVal.n x.time)]
    (if x.success then "info" else "warning") x.time x.rnd
  refine ⟨A2, hmem, ?_, ?_⟩
  · simpa [logLoginAttempt, loginEvt] using hev
  · rw [show (logLoginAttempt st x.username x.ip x.userAgent x.success x.time x.rnd)
        = logSecurityEvent st "login_attempt"
            [("username", DVal.s x.username), ("ip", DVal.s x.ip),
              ("userAgent", DVal.s x.userAgent), ("success", DVal.b x.success),
              ("timestamp", DVal.n x.time)]
            (if x.success then "info" else "warning") x.time x.rnd from rfl,
      hal, checkAlerts_login_eq]
    rfl

/-- Claim C5: five login-attempt insertions within a 5-minute span, starting
from a journal with no login-attempt event still inside the trailing window,
fire no alert at the first four insertions and fire exactly the single
`MULTIPLE_FAILED_LOGINS` alert at the fifth. -/
theorem loginAlert_fires_exactly_on_fifth
    (st0 : AuditState) (x1 x2 x3 x4 x5 : LoginAttemptIn)
    (h12 : x1.time ≤ x2.time) (h23 : x2.time ≤ x3.time)
    (h34 : x3.time ≤ x4.time) (h45 : x4.time ≤ x5.time)
    (hspan : x5.time < x1.time + 300000)
    (hold : ∀ e ∈ st0.events, e.eventType = "login_attempt" →
      e.time + 300000 ≤ x1.time) :
    (runLoginAttempts st0 [x1, x2, x3, x4, x5]).2 =
      [[], [], [], [], ["MULTIPLE_FAILED_LOGINS"]] := by
  obtain ⟨A1, hm1, he1, ha1⟩ :=
    logLoginAttempt_decomp st0 st0.events [] x1 (by simp) (by simp)
  have hz1 : ∀ now : Nat, x1.time ≤ now →
      countRecentLoginAttempts A1 now = 0 := by
    intro now hnow
    refine countRecentLoginAttempts_old_nil _ _ (fun e he ht => ?_)
    have := hold e (hm1 e he) ht
    omega
  have hz0 : ∀ now : Nat, x1.time ≤ now →
      countRecentLoginAttempts st0.events now = 0 := by
    intro now hnow
    refine countRecentLoginAttempts_old_nil _ _ (fun e he ht => ?_)
    have := hold e he ht
    omega
  obtain ⟨A2, hm2, he2, ha2⟩ :=
    logLoginAttempt_decomp _ A1 [loginEvt x1] x2 he1 (by simp)
  obtain ⟨A3, hm3, he3, ha3⟩ :=
    logLoginAttempt_decomp _ A2 ([loginEvt x1] ++ [loginEvt x2]) x3 he2 (by simp)
  obtain ⟨A4, hm4, he4, ha4⟩ :=
    logLoginAttempt_decomp _ A3 (([loginEvt x1] ++ [loginEvt x2]) ++ [loginEvt x3])
      x4 he3 (by simp)
  obtain ⟨A5, hm5, he5, ha5⟩ :=
    logLoginAttempt_decomp _ A4
      ((([loginEvt x1] ++ [loginEvt x2]) ++ [loginEvt x3]) ++ [loginEvt x4])
      x5 he4 (by simp)
  have hz2 : ∀ now : Nat, x1.time ≤ now → countRecentLoginAttempts A2 now = 0 :=
    fun now hnow => countRecentLoginAttempts_old_nil _ _
      (fun e he ht => by have := hold e (hm1 e (hm2 e he)) ht; omega)
  have hz3 : ∀ now : Nat, x1.time ≤ now → countRecentLoginAttempts A3 now = 0 :=
    fun now hnow => countRecentLoginAttempts_old_nil _ _
      (fun e he ht => by have := hold e (hm1 e (hm2 e (hm3 e he))) ht; omega)
  have hz4 : ∀ now : Nat, x1.time ≤ now → countRecentLoginAttempts A4 now = 0 :=
    fun now hnow => countRecentLoginAttempts_old_nil _ _
      (fun e he ht => by have := hold e (hm1 e (hm2 e (hm3 e (hm4 e he)))) ht; omega)
  have w1 : x1.time - x1.time < 300000 := by omega
  have w21 : x2.time - x1.time < 300000 := by omega
  have w22 : x2.time - x2.time < 300000 := by omega
  have w31 : x3.time - x1.time < 300000 := by omega
  have w32 : x3.time - x2.time < 300000 := by omega
  have w33 : x3.time - x3.time < 300000 := by omega
  have w41 : x4.time - x1.time < 300000 := by omega
  have w42 : x4.time - x2.time < 300000 := by omega
  have w43 : x4.time - x3.time < 300000 := by omega
  have w44 : x4.time - x4.time < 300000 := by omega
  have w51 : x5.time - x1.time < 300000 := by omega
  have w52 : x5.time - x2.time < 300000 := by omega
  have w53 : x5.time - x3.time < 300000 := by omega
  have w54 : x5.time - x4.time < 300000 := by omega
  have w55 : x5.time - x5.time < 300000 := by omega
  have hc1 : countRecentLoginAttempts ((st0.events ++ []) ++ [loginEvt x1])
      x1.time = 1 := by
    rw [countRecentLoginAttempts_append, countRecentLoginAttempts_append,
      hz0 x1.time (le_refl _)]
    simp [countRecentLoginAttempts, getRecentEvents, loginEvt, mkSecurityEvent, w1]
  have hc2 : countRecentLoginAttempts ((A1 ++ [loginEvt x1]) ++ [loginEvt x2])
      x2.time = 2 := by
    rw [countRecentLoginAttempts_append, countRecentLoginAttempts_append,
      hz1 x2.time (by omega)]
    simp [countRecentLoginAttempts, getRecentEvents, loginEvt, mkSecurityEvent,
      w21, w22]
  have hc3 : countRecentLoginAttempts
      ((A2 ++ ([loginEvt x1] ++ [loginEvt x2])) ++ [loginEvt x3]) x3.time = 3 := by
    rw [countRecentLoginAttempts_append, countRecentLoginAttempts_append,
      countRecentLoginAttempts_append, hz2 x3.time (by omega)]
    simp [countRecentLoginAttempts, getRecentEvents, loginEvt, mkSecurityEvent,
      w31, w32, w33]
  have hc4 : countRecentLoginAttempts
      ((A3 ++ (([loginEvt x1] ++ [loginEvt x2]) ++ [loginEvt x3])) ++ [loginEvt x4])
      x4.time = 4 := by
    rw [countRecentLoginAttempts_append, countRecentLoginAttempts_append,
      countRecentLoginAttempts_append, countRecentLoginAttempts_append,
      hz3 x4.time (by omega)]
    simp [countRecentLoginAttempts, getRecentEvents, loginEvt, mkSecurityEvent,
      w41, w42, w43, w44]
  have hc5 : countRecentLoginAttempts
      ((A4 ++ ((([loginEvt x1] ++ [loginEvt x2]) ++ [loginEvt x3]) ++ [loginEvt x4]))
        ++ [loginEvt x5]) x5.time = 5 := by
    rw [countRecentLoginAttempts_append, countRecentLoginAttempts_append,
      countRecentLoginAttempts_append, countRecentLoginAttempts_append,
      countRecentLoginAttempts_append, hz4 x5.time (by omega)]
    simp [countRecentLoginAttempts, getRecentEvents, loginEvt, mkSecurityEvent,
      w51, w52, w53, w54, w55]
  simp only [runLoginAttempts]
  rw [ha1, hc1] at *
  rw [ha2, hc2, ha3, hc3, ha4, hc4, ha5, hc5]
  norm_num

/-- Witness for C5 at concrete inputs: five successful login attempts at times
1..5 ms from an empty journal. -/
theorem loginAlert_fires_exactly_on_fifth_witness :
    ((1 : Nat) ≤ 2) ∧ ((2 : Nat) ≤ 3) ∧ ((3 : Nat) ≤ 4) ∧ ((4 : Nat) ≤ 5) ∧
      ((5 : Nat) < 1 + 300000) ∧
      (∀ e ∈ (⟨[], ⟨0, 0, 0, 0⟩⟩ : AuditState).events,
        e.eventType = "login_attempt" → e.time + 300000 ≤ 1) ∧
      (runLoginAttempts ⟨[], ⟨0, 0, 0, 0⟩⟩
          [⟨"u", "ip", "ua", true, 1, "r"⟩, ⟨"u", "ip", "ua", true, 2, "r"⟩,
            ⟨"u", "ip", "ua", true, 3, "r"⟩, ⟨"u", "ip", "ua", true, 4, "r"⟩,
            ⟨"u", "ip", "ua", true, 5, "r"⟩]).2 =
        [[], [], [], [], ["MULTIPLE_FAILED_LOGINS"]] :=
  ⟨by decide, by decide, by decide, by decide, by decide, by simp,
    loginAlert_fires_exactly_on_fifth ⟨[], ⟨0, 0, 0, 0⟩⟩
      ⟨"u", "ip", "ua", true, 1, "r"⟩ ⟨"u", "ip", "ua", true, 2, "r"⟩
      ⟨"u", "ip", "ua", true, 3, "r"⟩ ⟨"u", "ip", "ua", true, 4, "r"⟩
      ⟨"u", "ip", "ua", true, 5, "r"⟩
      (by decide) (by decide) (by decide) (by decide) (by decide) (by simp)⟩

/-! ## Theorems about the rate limiter -/

/-- The login step never touches the user-scope buckets. -/
theorem loginStep_userBuckets (st : LimiterState) (req : RLRequest) (now : Nat) :
    (loginStep st req now).2.userBuckets = st.userBuckets := by
  by_cases h : pathIncludesLogin req.path
  · rcases hc : consume st.config.login
      (st.loginBuckets (requestIp req ++ "_login")) now with ⟨r, b⟩
    cases r <;> simp [loginStep, h, hc]
  · simp [loginStep, h]

/-- The login step never touches the IP-scope buckets. -/
theorem loginStep_ipBuckets (st : LimiterState) (req : RLRequest) (now : Nat) :
    (loginStep st req now).2.ipBuckets = st.ipBuckets := by
  by_cases h : pathIncludesLogin req.path
  · rcases hc : consume st.config.login
      (st.loginBuckets (requestIp req ++ "_login")) now with ⟨r, b⟩
    cases r <;> simp [loginStep, h, hc]
  · simp [loginStep, h]

/-- If the path does not contain `/login`, the login step leaves the
login-scope buckets unchanged. -/
theorem loginStep_loginBuckets_of_not (st : LimiterState) (req : RLRequest)
    (now : Nat) (h : pathIncludesLogin req.path = false) :
    (loginStep st req now).2.loginBuckets = st.loginBuckets := by
  simp [loginStep, h]

/-- With no authenticated user the user step leaves the user-scope buckets
unchanged. -/
theorem userStep_userBuckets_of_none (st : LimiterState) (req : RLRequest)
    (now : Nat) (h : req.userId = none) :
    (userStep st req now).2.userBuckets = st.userBuckets := by
  simp [userStep, h, loginStep_userBuckets]

/-- The user step never touches the IP-scope buckets. -/
theorem userStep_ipBuckets (st : LimiterState) (req : RLRequest) (now : Nat) :
    (userStep st req now).2.ipBuckets = st.ipBuckets := by
  rcases h : req.userId with _ | uid
  · simp [userStep, h, loginStep_ipBuckets]
  · rcases hc : consume st.config.user (st.userBuckets uid) now with ⟨r, b⟩
    cases r <;> simp [userStep, h, hc, loginStep_ipBuckets]

/-- If the path does not contain `/login`, the user step leaves the
login-scope buckets unchanged. -/
theorem userStep_loginBuckets_of_not (st : LimiterState) (req : RLRequest)
    (now : Nat) (h : pathIncludesLogin req.path = false) :
    (userStep st req now).2.loginBuckets = st.loginBuckets := by
  rcases hu : req.userId with _ | uid
  · simp [userStep, hu, loginStep_loginBuckets_of_not _ _ _ h]
  · rcases hc : consume st.config.user (st.userBuckets uid) now with ⟨r, b⟩
    cases r <;> simp [userStep, hu, hc, loginStep_loginBuckets_of_not _ _ _ h]

/-- If the authenticated user is present and the user-scope consumption
rejects, the user step leaves the login-scope buckets unchanged. -/
theorem userStep_loginBuckets_of_userRejected (st : LimiterState)
    (req : RLRequest) (now : Nat) (uid : String) (hu : req.userId = some uid)
    (ms rem : Nat)
    (hrej : (consume st.config.user (st.userBuckets uid) now).1
      = ConsumeResult.rejected ms rem) :
    (userStep st req now).2.loginBuckets = st.loginBuckets := by
  rcases hc : consume st.config.user (st.userBuckets uid) now with ⟨r2, b2⟩
  rw [hc] at hrej
  cases r2 with
  | rejected m n => simp [userStep, hu, hc]
  | allowed n =>
    have h2 : ConsumeResult.allowed n = ConsumeResult.rejected ms rem := hrej
    cases h2

/-- Claim C9: while the `initialized` flag is false, `checkLimits` calls
`next()` and returns with the state untouched: nothing is consumed from any
scope and no rate-limit headers are set. -/
theorem checkLimits_uninitialized_fail_open (st : LimiterState)
    (req : RLRequest) (now : Nat) (h : st.initialized = false) :
    checkLimits st req now = (CheckOutcome.proceed, st) := by
  simp [checkLimits, h]

/-- Witness for C9 at a concrete uninitialized state. -/
theorem checkLimits_uninitialized_fail_open_witness :
    ({ rlStateEx with initialized := false } : LimiterState).initialized = false ∧
      checkLimits { rlStateEx with initialized := false } rlReqEx 0 =
        (CheckOutcome.proceed, { rlStateEx with initialized := false }) :=
  ⟨rfl, checkLimits_uninitialized_fail_open { rlStateEx with initialized := false }
    rlReqEx 0 rfl⟩

/-- Claim C1 (amended): for a non-exempt request on an initialized limiter,
the IP scope is always consumed; the USER scope bucket table changes only when
an authenticated user id is present; the LOGIN scope bucket table changes only
when the path contains `/login`; an IP-scope rejection answers 429 and leaves
both later scopes untouched; a USER-scope rejection leaves the LOGIN scope
untouched. -/
theorem checkLimits_scope_order (st : LimiterState) (req : RLRequest)
    (now : Nat) (hinit : st.initialized = true)
    (hex : isExemptPath st.config.exemptPaths req.path = false) :
    ((∀ ms rem, (consume st.config.ip (st.ipBuckets (requestIp req)) now).1
          = ConsumeResult.rejected ms rem →
        (checkLimits st req now).2.userBuckets = st.userBuckets ∧
          (checkLimits st req now).2.loginBuckets = st.loginBuckets ∧
          (checkLimits st req now).1 = mkTooMany st.config.ip ms rem) ∧
      (req.userId = none →
        (checkLimits st req now).2.userBuckets = st.userBuckets) ∧
      (pathIncludesLogin req.path = false →
        (checkLimits st req now).2.loginBuckets = st.loginBuckets) ∧
      (∀ rem uid ms2 rem2,
        (consume st.config.ip (st.ipBuckets (requestIp req)) now).1
            = ConsumeResult.allowed rem →
        req.userId = some uid →
        (consume st.config.user (st.userBuckets uid) now).1
            = ConsumeResult.rejected ms2 rem2 →
        (checkLimits st req now).2.loginBuckets = st.loginBuckets) ∧
      (checkLimits st req now).2.ipBuckets (requestIp req)
        = some (consume st.config.ip (st.ipBuckets (requestIp req)) now).2) := by
  have hne : ¬ st.initialized = false := by rw [hinit]; simp
  rcases hip : consume st.config.ip (st.ipBuckets (requestIp req)) now with ⟨r, b⟩
  cases r with
  | rejected ms rem =>
    refine ⟨?_, ?_, ?_, ?_, ?_⟩
    · intro ms1 rem1 h1
      have h2 : ConsumeResult.rejected ms rem = ConsumeResult.rejected ms1 rem1 := h1
      cases h2
      simp [checkLimits, hne, hex, hip]
    · intro _
      simp [checkLimits, hne, hex, hip]
    · intro _
      simp [checkLimits, hne, hex, hip]
    · intro rem1 uid ms2 rem2 h1
      have h2 : ConsumeResult.rejected ms rem = ConsumeResult.allowed rem1 := h1
      cases h2
    · simp [checkLimits, hne, hex, hip, setBucket]
  | allowed rem =>
    have hcl : checkLimits st req now =
        userStep { st with ipBuckets := setBucket st.ipBuckets (requestIp req) b }
          req now := by
      simp [checkLimits, hne, hex, hip]
    refine ⟨?_, ?_, ?_, ?_, ?_⟩
    · intro ms1 rem1 h1
      have h2 : ConsumeResult.allowed rem = ConsumeResult.rejected ms1 rem1 := h1
      cases h2
    · intro hu
      rw [hcl, userStep_userBuckets_of_none _ _ _ hu]
    · intro hp
      rw [hcl, userStep_loginBuckets_of_not _ _ _ hp]
    · intro rem1 uid ms2 rem2 _ hu hrej
      rw [hcl]
      exact userStep_loginBuckets_of_userRejected _ _ _ uid hu ms2 rem2 hrej
    · rw [hcl, userStep_ipBuckets]
      simp [setBucket]

/-- Witness for C1 at a concrete initialized state and non-exempt request. -/
theorem checkLimits_scope_order_witness :
    rlStateEx.initialized = true ∧
      isExemptPath rlStateEx.config.exemptPaths rlReqEx.path = false ∧
      ((∀ ms rem, (consume rlStateEx.config.ip
            (rlStateEx.ipBuckets (requestIp rlReqEx)) 0).1
            = ConsumeResult.rejected ms rem →
          (checkLimits rlStateEx rlReqEx 0).2.userBuckets = rlStateEx.userBuckets ∧
            (checkLimits rlStateEx rlReqEx 0).2.loginBuckets = rlStateEx.loginBuckets ∧
            (checkLimits rlStateEx rlReqEx 0).1 = mkTooMany rlStateEx.config.ip ms rem) ∧
        (rlReqEx.userId = none →
          (checkLimits rlStateEx rlReqEx 0).2.userBuckets = rlStateEx.userBuckets) ∧
        (pathIncludesLogin rlReqEx.path = false →
          (checkLimits rlStateEx rlReqEx 0).2.loginBuckets = rlStateEx.loginBuckets) ∧
        (∀ rem uid ms2 rem2,
          (consume rlStateEx.config.ip
              (rlStateEx.ipBuckets (requestIp rlReqEx)) 0).1
              = ConsumeResult.allowed rem →
          rlReqEx.userId = some uid →
          (consume rlStateEx.config.user (rlStateEx.userBuckets uid) 0).1
              = ConsumeResult.rejected ms2 rem2 →
          (checkLimits rlStateEx rlReqEx 0).2.loginBuckets = rlStateEx.loginBuckets) ∧
        (checkLimits rlStateEx rlReqEx 0).2.ipBuckets (requestIp rlReqEx)
          = some (consume rlStateEx.config.ip
              (rlStateEx.ipBuckets (requestIp rlReqEx)) 0).2) :=
  ⟨rfl, by decide, checkLimits_scope_order rlStateEx rlReqEx 0 rfl (by decide)⟩

/-- Counterexample for C1 as stated: the request path `/loginator` is not the
login endpoint `/login`, yet `checkLimits` consumes from the LOGIN scope (its
bucket table changes at the consumed key). -/
theorem checkLimits_login_scope_counterexample :
    rlReqEx.path ≠ "/login" ∧
      (checkLimits rlStateEx rlReqEx 0).2.loginBuckets "9.9.9.9_login"
        ≠ rlStateEx.loginBuckets "9.9.9.9_login" := by
  constructor
  · decide
  · decide

/-! ## Theorems about the JWT manager -/

/-- Claim C3: after `revoke(jti)`, verification of any token whose payload
carries that `jti` throws the revocation error, even when the token's
signature is valid under a known key and the token is unexpired. -/
theorem verifyToken_rejects_revoked (st : JWTState) (tok : Token) (now : Int)
    (j : String) (hjti : tok.payload "jti" = some (JVal.s j)) (key : String)
    (_hkey : lookupVerifyKey (revokeToken st j) tok.headerKid = some key)
    (_hsig : tok.sigKey = key)
    (_hexp : ∀ e, tok.payload "exp" = some (JVal.n e) → now < e) :
    verifyToken (revokeToken st j) tok now
      = Except.error "Token inválido: Token revogado" := by
  have hmem : j ∈ (revokeToken st j).blacklistedTokens := by
    by_cases h : j ∈ st.blacklistedTokens <;> simp [revokeToken, h]
  simp [verifyToken, hjti, hmem]

/-- Witness for C3 at a concrete state and token. -/
theorem verifyToken_rejects_revoked_witness :
    jwtTokenEx.payload "jti" = some (JVal.s "j1") ∧
      lookupVerifyKey (revokeToken jwtStateEx "j1") jwtTokenEx.headerKid
        = some "secret" ∧
      jwtTokenEx.sigKey = "secret" ∧
      (∀ e, jwtTokenEx.payload "exp" = some (JVal.n e) → (0 : Int) < e) ∧
      verifyToken (revokeToken jwtStateEx "j1") jwtTokenEx 0
        = Except.error "Token inválido: Token revogado" :=
  ⟨rfl, rfl, rfl,
    fun e he => by
      have h2 : some (JVal.n 100) = some (JVal.n e) := he
      cases h2
      omega,
    verifyToken_rejects_revoked jwtStateEx jwtTokenEx 0 "j1" rfl "secret" rfl rfl
      (fun e he => by
        have h2 : some (JVal.n 100) = some (JVal.n e) := he
        cases h2
        omega)⟩

/-- Counterexample for C4 as stated: for the caller payload carrying
`iss = "other"`, sign-then-verify succeeds but the returned payload maps
`iss` to `"auth-service"` — the original claim is not returned unchanged,
because `signToken` writes the registered claims over the spread payload. -/
theorem signVerify_roundtrip_counterexample :
    jwtPayloadC4Ex "iss" = some (JVal.s "other") ∧
      signToken jwtStateEx jwtPayloadC4Ex 0 "j1"
        = some (jwtSign (signedPayload jwtPayloadC4Ex 0 "j1" "key1")
            "secret" "key1") ∧
      verifyToken jwtStateEx
          (jwtSign (signedPayload jwtPayloadC4Ex 0 "j1" "key1") "secret" "key1") 0
        = Except.ok (signedPayload jwtPayloadC4Ex 0 "j1" "key1") ∧
      signedPayload jwtPayloadC4Ex 0 "j1" "key1" "iss"
        = some (JVal.s "auth-service") :=
  ⟨rfl, rfl, rfl, rfl⟩

/-- Claim C4 (amended): sign-then-verify in an unchanged state (no rotation,
no revocation in between) succeeds before the token's expiry, and the
returned payload agrees with the original claims on every key other than the
registered claims `iat`, `exp`, `jti`, `kid`, `iss`, `aud` (which `signToken`
overwrites). -/
theorem signVerify_roundtrip_nonreserved (st : JWTState) (p : Payload)
    (now now2 : Int) (jti secret : String)
    (hkey : st.keys st.currentKeyId = some secret) (hne : secret ≠ "")
    (hjti : jti ∉ st.blacklistedTokens)
    (hclock : now2 < now + 6 * 60 * 60) :
    ∃ tok, signToken st p now jti = some tok ∧
      verifyToken st tok now2
        = Except.ok (signedPayload p now jti st.currentKeyId) ∧
      ∀ k, k ∉ reservedClaims →
        signedPayload p now jti st.currentKeyId k = p k := by
  refine ⟨jwtSign (signedPayload p now jti st.currentKeyId) secret st.currentKeyId,
    ?_, ?_, ?_⟩
  · simp [signToken, hkey, hne]
  · have hjv : signedPayload p now jti st.currentKeyId "jti"
        = some (JVal.s jti) := by simp [signedPayload]
    have hev : signedPayload p now jti st.currentKeyId "exp"
        = some (JVal.n (now + 6 * 60 * 60)) := by simp [signedPayload]
    have hnl : ¬ (now + 21600 ≤ now2) := by omega
    have hlk : lookupVerifyKey st st.currentKeyId = some secret := by
      simp [lookupVerifyKey, jsOrKey, hkey, hne]
    simp [verifyToken, jwtSign, hjv, hjti, hlk, jwtVerify, hev, hnl]
  · intro k hk
    simp only [reservedClaims, List.mem_cons, List.not_mem_nil, or_false,
      not_or] at hk
    obtain ⟨h1, h2, h3, h4, h5, h6⟩ := hk
    simp [signedPayload, h1, h2, h3, h4, h5, h6]

/-- Witness for the amended C4 at a concrete state and payload. -/
theorem signVerify_roundtrip_nonreserved_witness :
    jwtStateEx.keys jwtStateEx.currentKeyId = some "secret" ∧
      ("secret" : String) ≠ "" ∧
      "j2" ∉ jwtStateEx.blacklistedTokens ∧
      ((0 : Int) < 0 + 6 * 60 * 60) ∧
      (∃ tok, signToken jwtStateEx jwtPayloadC4Wit 0 "j2" = some tok ∧
        verifyToken jwtStateEx tok 0
          = Except.ok (signedPayload jwtPayloadC4Wit 0 "j2" jwtStateEx.currentKeyId) ∧
        ∀ k, k ∉ reservedClaims →
          signedPayload jwtPayloadC4Wit 0 "j2" jwtStateEx.currentKeyId k
            = jwtPayloadC4Wit k) :=
  ⟨rfl, by decide, by simp [jwtStateEx], by decide,
    signVerify_roundtrip_nonreserved jwtStateEx jwtPayloadC4Wit 0 0 "j2" "secret"
      rfl (by decide) (by simp [jwtStateEx]) (by decide)⟩

/-! ## Theorems about the security monitor -/

/-- A list of characters that all escape to themselves is fixed by the
`JSON.stringify` character escaping. -/
theorem flatMap_jsonEscape_self (pat : List Char)
    (hplain : ∀ c ∈ pat, jsonEscapeChar c = [c]) :
    pat.flatMap jsonEscapeChar = pat := by
  induction pat with
  | nil => simp
  | cons c t ih =>
    simp only [List.flatMap_cons, hplain c (List.mem_cons_self c t)]
    rw [ih (fun x hx => hplain x (List.mem_cons_of_mem c hx))]
    rfl

/-- A pattern whose characters all escape to themselves survives the
`JSON.stringify` character escaping. -/
theorem infix_flatMap_jsonEscape (pat s : List Char)
    (hplain : ∀ c ∈ pat, jsonEscapeChar c = [c]) (h : pat <:+: s) :
    pat <:+: s.flatMap jsonEscapeChar := by
  obtain ⟨a, b, hab⟩ := h
  exact ⟨a.flatMap jsonEscapeChar, b.flatMap jsonEscapeChar, by
    rw [← hab, List.flatMap_append, List.flatMap_append,
      flatMap_jsonEscape_self pat hplain]⟩

/-- Claim C7: for every request whose body contains
`<script>alert(1)</script>`, the script pattern of the scan matches the
request data, and `detectThreats` rejects with HTTP 403 (it consults no quota
state at all). -/
theorem scriptPayload_rejected (st : MonitorState) (req : MonRequest)
    (now : Nat)
    (h : "<script>alert(1)</script>".toList <:+: req.body.toList) :
    pat0 ((requestData req).map Char.toLower) = true ∧
      ∃ msg, (detectThreats st req now).1 = MonOutcome.reject 403 msg := by
  have hpre : "<script>".toList <+: "<script>alert(1)</script>".toList := by
    decide
  have hsub : "<script>".toList <:+: req.body.toList := hpre.isInfix.trans h
  have hplain : ∀ c ∈ "<script>".toList, jsonEscapeChar c = [c] := by decide
  have h2 : "<script>".toList <:+: req.body.toList.flatMap jsonEscapeChar :=
    infix_flatMap_jsonEscape _ _ hplain hsub
  have h3 : "<script>".toList <:+: requestData req := by
    obtain ⟨a, b, hab⟩ := h2
    refine ⟨'"' :: a,
      b ++ ['"'] ++ req.url.toList ++ req.userAgent.toList, ?_⟩
    simp only [requestData, jsonStringifyString, ← hab]
    simp
  have h4 : "<script>".toList <:+: (requestData req).map Char.toLower := by
    have hm := h3.map Char.toLower
    have hself : "<script>".toList.map Char.toLower = "<script>".toList := by
      decide
    rwa [hself] at hm
  have hp0 : pat0 ((requestData req).map Char.toLower) = true := by
    have h5 : ['<', 's', 'c', 'r', 'i', 'p', 't', '>'] <:+:
        List.map Char.toLower (requestData req) := by simpa using h4
    simp only [pat0, containsCI, Bool.or_eq_true, decide_eq_true_eq]
    exact Or.inl (Or.inl (Or.inl h5))
  refine ⟨hp0, ?_⟩
  by_cases hb : st.blockedIPs req.ip
  · exact ⟨"IP temporarily blocked due to suspicious activity",
      by simp [detectThreats, hb]⟩
  · refine ⟨"Suspicious activity detected", ?_⟩
    have hmem : pat0 ∈ suspiciousPatterns.filter
        (fun p => p ((requestData req).map Char.toLower)) :=
      List.mem_filter.mpr ⟨by simp [suspiciousPatterns], hp0⟩
    have hlen : 0 < (suspiciousPatterns.filter
        (fun p => p ((requestData req).map Char.toLower))).length :=
      List.length_pos.mpr (List.ne_nil_of_mem hmem)
    simp [detectThreats, hb, hlen]

/-- Witness for C7 at a concrete state and request. -/
theorem scriptPayload_rejected_witness :
    ("<script>alert(1)</script>".toList <:+: monReqEx.body.toList) ∧
      (pat0 ((requestData monReqEx).map Char.toLower) = true ∧
        ∃ msg, (detectThreats monStateEx monReqEx 0).1
          = MonOutcome.reject 403 msg) :=
  ⟨by decide, scriptPayload_rejected monStateEx monReqEx 0 (by decide)⟩

/-- Claim C10: blocking an already-blocked IP does not extend the block.  The
unblock callback scheduled by the first `blockSuspiciousIP` call still fires
at `t0 + 1h` and removes the IP, so at that instant the IP is no longer
blocked — strictly before `t1 + 1h` — despite the second call at `t1`. -/
theorem blockSuspiciousIP_no_extend (st : MonitorState) (ip : String)
    (t0 t1 : Nat) (h01 : t0 < t1) (hin : t1 < t0 + 3600000) :
    (runDueTimers (blockSuspiciousIP (blockSuspiciousIP st ip t0) ip t1)
        (t0 + 3600000)).blockedIPs ip = false ∧
      t0 + 3600000 < t1 + 3600000 := by
  constructor
  · have hany : ((blockSuspiciousIP (blockSuspiciousIP st ip t0) ip t1).blockTimers).any
        (fun p => decide (p.1 ≤ t0 + 3600000) && decide (p.2 = ip)) = true := by
      apply List.any_eq_true.mpr
      refine ⟨(t0 + 3600000, ip), ?_, ?_⟩
      · simp [blockSuspiciousIP]
      · simp
    simp [runDueTimers, hany]
  · omega

/-- Witness for C10 at concrete times 0 and 1000. -/
theorem blockSuspiciousIP_no_extend_witness :
    ((0 : Nat) < 1000) ∧ ((1000 : Nat) < 0 + 3600000) ∧
      ((runDueTimers (blockSuspiciousIP (blockSuspiciousIP monStateEx "9.9.9.9" 0)
            "9.9.9.9" 1000) (0 + 3600000)).blockedIPs "9.9.9.9" = false ∧
        (0 : Nat) + 3600000 < 1000 + 3600000) :=
  ⟨by decide, by decide,
    blockSuspiciousIP_no_extend monStateEx "9.9.9.9" 0 1000 (by decide) (by decide)⟩
